import Mathlib

/-!
# Direct3DSwapChain9_LSS: the client-side swap-chain proxy of the bridge

A shallow embedding of `src/client/d3d9_swapchain.cpp`.  Every method of
`Direct3DSwapChain9_LSS` becomes a function on an explicit `World`: the
process-wide globals the methods touch, the record of what was handed to the
external collaborators (command channel, frame synchronisation, device), the
swap-chain proxy itself and its owning device.

Conventions of the embedding
* A pointer argument `T* p` is an `Option T`: `none` is `nullptr`, `some v`
  is a pointer to a cell that currently holds `v`.  A method returns the
  content of the cell after the call next to its `HRESULT`.
* A pointer to a proxy object is `Option Nat`: the process-local handle of
  the object, `none` for `nullptr`.
* `HRESULT` is a signed 32-bit value, embedded as an `Int` constant.
* The single application thread of the source is the only thread, so the
  scoped lock `BRIDGE_PARENT_DEVICE_LOCKGUARD()` has no effect on the state.
* Call tracing (`LogFunctionCall`, `LogMissingFunctionCall`, `ZoneScoped`)
  is not part of the state.
-/

namespace BridgeRemix

/-! ## Result codes (Windows SDK values) -/

abbrev HRESULT := Int

def S_OK : HRESULT := 0
def D3D_OK : HRESULT := 0
/-- E_POINTER is 0x80004003 read as a signed 32-bit value. -/
def E_POINTER : HRESULT := 0x80004003 - 0x100000000
/-- E_NOINTERFACE is 0x80004002 read as a signed 32-bit value. -/
def E_NOINTERFACE : HRESULT := 0x80004002 - 0x100000000
/-- D3DERR_INVALIDCALL is MAKE_D3DHRESULT(2156), 0x8876086C as a signed 32-bit value. -/
def D3DERR_INVALIDCALL : HRESULT := 0x8876086C - 0x100000000
/-- ERROR_SEM_TIMEOUT is the Win32 error code 121. -/
def ERROR_SEM_TIMEOUT : HRESULT := 121

/-! ## Plain data of the Direct3D 9 API -/

structure GUID where
  Data1 : Nat
  Data2 : Nat
  Data3 : Nat
  Data4 : List Nat
  deriving DecidableEq, Repr

/-- The interface identity of IUnknown, 00000000-0000-0000-C000-000000000046. -/
def uuidof_IUnknown : GUID :=
  ⟨0x00000000, 0x0000, 0x0000, [0xC0, 0x00, 0x00, 0x00, 0x00, 0x00, 0x00, 0x46]⟩

/-- The interface identity of IDirect3DSwapChain9, 794950F2-ADFC-458a-905E-10A10B0B503B. -/
def uuidof_IDirect3DSwapChain9 : GUID :=
  ⟨0x794950F2, 0xADFC, 0x458A, [0x90, 0x5E, 0x10, 0xA1, 0x0B, 0x0B, 0x50, 0x3B]⟩

structure RECT where
  left : Int
  top : Int
  right : Int
  bottom : Int
  deriving DecidableEq, Repr

structure RGNDATAHEADER where
  dwSize : Nat
  iType : Nat
  nCount : Nat
  nRgnSize : Nat
  rcBound : RECT
  deriving DecidableEq, Repr

structure RGNDATA where
  rdh : RGNDATAHEADER
  Buffer : Nat
  deriving DecidableEq, Repr

/-- The size of a RECT: four 32-bit LONGs. -/
def sizeof_RECT : Nat := 16
/-- The size of a RGNDATA: a 32-byte header and `char Buffer[1]`, padded to 4 bytes. -/
def sizeof_RGNDATA : Nat := 36

structure D3DSURFACE_DESC where
  Format : Nat
  Type_ : Nat
  Usage : Nat
  Pool : Nat
  MultiSampleType : Nat
  MultiSampleQuality : Nat
  Width : Nat
  Height : Nat
  deriving DecidableEq, Repr

def D3DUSAGE_RENDERTARGET : Nat := 1
def D3DPOOL_DEFAULT : Nat := 0
def D3DRTYPE_SURFACE : Nat := 1

structure D3DPRESENT_PARAMETERS where
  BackBufferWidth : Nat
  BackBufferHeight : Nat
  BackBufferFormat : Nat
  BackBufferCount : Nat
  MultiSampleType : Nat
  MultiSampleQuality : Nat
  SwapEffect : Nat
  hDeviceWindow : Nat
  Windowed : Bool
  EnableAutoDepthStencil : Bool
  AutoDepthStencilFormat : Nat
  Flags : Nat
  FullScreen_RefreshRateInHz : Nat
  PresentationInterval : Nat
  deriving DecidableEq, Repr

structure D3DDISPLAYMODE where
  Width : Nat
  Height : Nat
  RefreshRate : Nat
  Format : Nat
  deriving DecidableEq, Repr

structure D3DRASTER_STATUS where
  InVBlank : Bool
  ScanLine : Nat
  deriving DecidableEq, Repr

/-! ## The command channel -/

/-- The opcodes this file sends. -/
inductive Commands where
  | IDirect3DSwapChain9_Destroy
  | IDirect3DSwapChain9_Present
  | IDirect3DSwapChain9_GetFrontBufferData
  | IDirect3DSwapChain9_GetBackBuffer
  deriving DecidableEq, Repr

/-- What a pointer handed to `send_data(size, ptr)` points at. -/
inductive Blob where
  | rect (r : RECT)
  | rgndata (r : RGNDATA)
  deriving DecidableEq, Repr

/-- One item of a command payload: `u32 v` is `send_data(uint32_t)`, and
`data size obj` is `send_data(size, ptr)` with its declared size and the
pointee, `none` for a null pointer. -/
inductive PayloadItem where
  | u32 (v : Nat)
  | data (size : Nat) (obj : Option Blob)
  deriving DecidableEq, Repr

/-- A command record on the channel: opcode, target object id, payload. -/
structure Command where
  opcode : Commands
  handle : Nat
  payload : List PayloadItem
  deriving DecidableEq, Repr

/-- What the proxy does to its collaborators, in program order. -/
inductive Event where
  | command (c : Command)
  | syncOnPresent
  | FrameMark
  | deviceGetDisplayMode (iSwapChain : Nat)
  | copyServerSurfaceRawData (surface : Nat)
  deriving DecidableEq, Repr

/-- A fault of the process: the call does not return. -/
inductive Fault where
  | nullPointerDereference
  deriving DecidableEq, Repr

inductive SceneState where
  | WaitBeginScene
  | SceneInProgress
  | SceneEnded
  deriving DecidableEq, Repr

/-! ## Proxy objects -/

/-- The surface proxy, a child of the swap chain. -/
structure Direct3DSurface9_LSS where
  handle : Nat
  id : Nat
  refCount : Int
  container : Nat
  desc : D3DSURFACE_DESC
  deriving DecidableEq, Repr

/-- The owning device, as far as the swap chain uses it. -/
structure BaseDirect3DDevice9Ex_LSS where
  handle : Nat
  refCount : Int
  displayMode : D3DDISPLAYMODE
  deriving DecidableEq, Repr

/-- The swap-chain proxy: identity, reference count, child cache and the
cached presentation parameters. -/
structure Direct3DSwapChain9_LSS where
  handle : Nat
  id : Nat
  refCount : Int
  m_children : List (Nat × Direct3DSurface9_LSS)
  m_presParam : D3DPRESENT_PARAMETERS
  deriving DecidableEq, Repr

/-- The state the methods of the swap chain read and write. -/
structure World where
  gbBridgeRunning : Bool
  gSceneState : SceneState
  counter : Nat
  events : List Event
  ogWndProc : List Nat
  onceUnhookedWinproc : Bool
  infoLog : List String
  nextHandle : Nat
  nextId : Nat
  m_pDevice : BaseDirect3DDevice9Ex_LSS
  swapChain : Direct3DSwapChain9_LSS
  deriving DecidableEq, Repr

/-- The commands on the channel, oldest first. -/
def World.channel (w : World) : List Command :=
  w.events.filterMap fun e => match e with
    | .command c => some c
    | _ => none

/-- How often `syncOnPresent` was called. -/
def World.syncCalls (w : World) : Nat :=
  w.events.count Event.syncOnPresent

/-! ## Collaborators that live outside `d3d9_swapchain.cpp` -/

/-- Modelled from the spec: `ClientMessage`, the scoped builder of one command
record.  A command carries an opcode, a target object id and a payload; the
`send_data` calls of one command are concatenated into a single record. -/
structure ClientMessage where
  m_command : Commands
  m_handle : Nat
  m_payload : List PayloadItem
  deriving DecidableEq, Repr

/-- Modelled from the spec: `ClientMessage::reset_counter()`, which resets the
call-sequencing counter of the channel. -/
def ClientMessage.reset_counter (w : World) : World :=
  { w with counter := 0 }

/-- Modelled from the spec: the constructor `ClientMessage c(opcode, id)`
opens a record for `opcode` aimed at `id` and counts it in the
call-sequencing counter. -/
def ClientMessage.ctor (command : Commands) (handle : Nat) (w : World) :
    ClientMessage × World :=
  (⟨command, handle, []⟩, { w with counter := w.counter + 1 })

/-- Modelled from the spec: `send_data(uint32_t)` adds one 32-bit item. -/
def ClientMessage.send_data (c : ClientMessage) (obj : Nat) : ClientMessage :=
  { c with m_payload := c.m_payload ++ [PayloadItem.u32 obj] }

/-- Modelled from the spec: `send_data(size, ptr)` adds one item of the
declared size; a null pointer is sent as a fixed-size sentinel item. -/
def ClientMessage.send_data_sized (c : ClientMessage) (size : Nat) (obj : Option Blob) :
    ClientMessage :=
  { c with m_payload := c.m_payload ++ [PayloadItem.data size obj] }

/-- Modelled from the spec: the destructor of `ClientMessage` at the end of
its scope appends the finished record to the ordered channel. -/
def ClientMessage.dtor (c : ClientMessage) (w : World) : World :=
  { w with events := w.events ++ [Event.command ⟨c.m_command, c.m_handle, c.m_payload⟩] }

/-- Modelled from the spec: `getChild(slot) -> object|absent` of the
container base class `Direct3DContainer9_LSS`. -/
def getChild (idx : Nat) : List (Nat × Direct3DSurface9_LSS) → Option Direct3DSurface9_LSS
  | [] => none
  | (k, child) :: rest => if k = idx then some child else getChild idx rest

/-- Modelled from the spec: `setChild(slot, obj)` of the container base class
`Direct3DContainer9_LSS`; a slot holds at most one child. -/
def setChild (idx : Nat) (child : Direct3DSurface9_LSS) :
    List (Nat × Direct3DSurface9_LSS) → List (Nat × Direct3DSurface9_LSS)
  | [] => [(idx, child)]
  | (k, old) :: rest =>
    if k = idx then (idx, child) :: rest else (k, old) :: setChild idx child rest

/-- Modelled from the spec: `new Direct3DSurface9_LSS(m_pDevice, this, desc)`.
The new proxy gets a fresh process-local handle and a fresh registry id, keeps
the descriptor it is given and is handed out holding one reference. -/
def Direct3DSurface9_LSS.ctor (container : Nat) (desc : D3DSURFACE_DESC) (w : World) :
    Direct3DSurface9_LSS × World :=
  ({ handle := w.nextHandle, id := w.nextId, refCount := 1, container := container,
     desc := desc },
   { w with nextHandle := w.nextHandle + 1, nextId := w.nextId + 1 })

/-- Modelled from the spec: `trackWrapper(obj) -> obj` of the object registry. -/
def trackWrapper (obj : Direct3DSurface9_LSS) : Direct3DSurface9_LSS := obj

/-- Modelled from the spec: `Direct3DSurface9_LSS::AddRef`, one more reference
on the surface proxy. -/
def Direct3DSurface9_LSS.AddRef (s : Direct3DSurface9_LSS) : Direct3DSurface9_LSS :=
  { s with refCount := s.refCount + 1 }

/-- Modelled from the spec: `D3D<IDirect3DSurface9>()`, the remote identifier
equivalent to a surface proxy. -/
def Direct3DSurface9_LSS.D3D (s : Direct3DSurface9_LSS) : Nat := s.id

/-- The value of a reference count as the `ULONG` the COM methods return. -/
def toULONG (n : Int) : Nat := (n % 0x100000000).toNat

/-- Modelled from the spec: `Direct3DContainer9_LSS::AddRef`, the base-class
increment of the reference count. -/
def Direct3DContainer9_LSS.AddRef (w : World) : Nat × World :=
  let cnt := w.swapChain.refCount + 1
  (toULONG cnt, { w with swapChain := { w.swapChain with refCount := cnt } })

/-- Modelled from the spec: `AddRef` of the owning device. -/
def BaseDirect3DDevice9Ex_LSS.AddRef (w : World) : World :=
  { w with m_pDevice := { w.m_pDevice with refCount := w.m_pDevice.refCount + 1 } }

/-- Modelled from the spec: `GetDisplayMode(iSwapChain, pMode)` of the owning
device, a pure-local call answered from the device state. -/
def BaseDirect3DDevice9Ex_LSS.GetDisplayMode (iSwapChain : Nat)
    (pMode : Option D3DDISPLAYMODE) (w : World) :
    HRESULT × Option D3DDISPLAYMODE × World :=
  let w := { w with events := w.events ++ [Event.deviceGetDisplayMode iSwapChain] }
  match pMode with
  | none => (D3DERR_INVALIDCALL, none, w)
  | some _ => (D3D_OK, some w.m_pDevice.displayMode, w)

/-- Modelled from the spec: `syncOnPresent()`, the bounded wait on the frame
synchronisation primitive.  Its status is decided by the server side and is
given here as `status`. -/
def syncOnPresent (status : HRESULT) (w : World) : HRESULT × World :=
  (status, { w with events := w.events ++ [Event.syncOnPresent] })

/-- Modelled from the spec: `WAIT_FOR_OPTIONAL_SERVER_RESPONSE(func, value)`,
the response wait that ends a synchronous call.  The call returns the result
that arrived, `response`, or `value` when the bounded wait elapsed without
one (`none`). -/
def WAIT_FOR_OPTIONAL_SERVER_RESPONSE (response : Option HRESULT) (value : HRESULT) :
    HRESULT :=
  match response with
  | some res => res
  | none => value

/-- Modelled from the spec: `copyServerSurfaceRawData(surface)`, the blocking
readback into the destination surface; its result is given as `status`. -/
def copyServerSurfaceRawData (pLssSurface : Direct3DSurface9_LSS) (status : HRESULT)
    (w : World) : HRESULT × World :=
  (status,
   { w with events := w.events ++ [Event.copyServerSurfaceRawData pLssSurface.handle] })

/-- The one-shot `ONCE(Logger::info(...))` of `Present`. -/
def ONCE_Logger_info (msg : String) (w : World) : World :=
  if w.onceUnhookedWinproc then w
  else { w with onceUnhookedWinproc := true, infoLog := w.infoLog ++ [msg] }

/-- The profiler macro `FrameMark`. -/
def FrameMark (w : World) : World :=
  { w with events := w.events ++ [Event.FrameMark] }

/-! ## `Direct3DSwapChain9_LSS` interface implementation -/

namespace Direct3DSwapChain9_LSS

/-- The accessor `getId()` of the proxy `this`. -/
def getId (w : World) : Nat := w.swapChain.id

/-- The cast `bridge_cast<IDirect3DSwapChain9*>(this)`. -/
def bridge_cast_this (w : World) : Option Nat := some w.swapChain.handle

/-- The method `AddRef`: the call of the container base class. -/
def AddRef (w : World) : Nat × World :=
  Direct3DContainer9_LSS.AddRef w

/-- The method `QueryInterface`.  The cell behind a non-null `ppvObj` is first
set to null and then, for a supported identity, to the proxy itself. -/
def QueryInterface (riid : GUID) (ppvObj : Option (Option Nat)) (w : World) :
    HRESULT × Option (Option Nat) × World :=
  match ppvObj with
  | none => (E_POINTER, none, w)
  | some _ =>
    let cell : Option Nat := none
    if riid = uuidof_IUnknown ∨ riid = uuidof_IDirect3DSwapChain9 then
      let cell := bridge_cast_this w
      let (_, w) := AddRef w
      (S_OK, some cell, w)
    else
      (E_NOINTERFACE, some cell, w)

/-- The method `Present`.  `hDestWindowOverride` is the window handle as a
number, 0 for `NULL`; `syncStatus` is the status `syncOnPresent` returns when
it is called. -/
def Present (pSourceRect pDestRect : Option RECT) (hDestWindowOverride : Nat)
    (pDirtyRegion : Option RGNDATA) (dwFlags : Nat) (syncStatus : HRESULT) (w : World) :
    HRESULT × World :=
  let w := ClientMessage.reset_counter w
  let w := { w with gSceneState := SceneState.WaitBeginScene }
  if !w.gbBridgeRunning then
    (D3D_OK, w)
  else
    let (c, w) := ClientMessage.ctor Commands.IDirect3DSwapChain9_Present (getId w) w
    let c := c.send_data_sized sizeof_RECT (pSourceRect.map Blob.rect)
    let c := c.send_data_sized sizeof_RECT (pDestRect.map Blob.rect)
    let c := c.send_data (hDestWindowOverride % 0x100000000)
    let c := c.send_data_sized sizeof_RGNDATA (pDirtyRegion.map Blob.rgndata)
    let c := c.send_data dwFlags
    let w := c.dtor w
    let w :=
      if hDestWindowOverride ≠ 0 ∧ w.ogWndProc.count hDestWindowOverride = 0 then
        ONCE_Logger_info "Detected unhooked winproc on Direct3DSwapChain9::Present" w
      else w
    let (syncResult, w) := syncOnPresent syncStatus w
    if syncResult = ERROR_SEM_TIMEOUT then
      (ERROR_SEM_TIMEOUT, w)
    else
      (D3D_OK, FrameMark w)

/-- The method `GetFrontBufferData`.  The destination is cast and its member
`D3D<IDirect3DSurface9>()` is called without a check, so a null
`pDestSurface` is a member call on a null pointer: the call faults.
`readback` is the status `copyServerSurfaceRawData` returns. -/
def GetFrontBufferData (pDestSurface : Option Direct3DSurface9_LSS) (readback : HRESULT)
    (w : World) : Except Fault (HRESULT × World) :=
  match pDestSurface with
  | none => Except.error Fault.nullPointerDereference
  | some pLssDestinationSurface =>
    let pIDestinationSurface := pLssDestinationSurface.D3D
    let (c, w) := ClientMessage.ctor Commands.IDirect3DSwapChain9_GetFrontBufferData (getId w) w
    let c := c.send_data (pIDestinationSurface % 0x100000000)
    let w := c.dtor w
    Except.ok (copyServerSurfaceRawData pLssDestinationSurface readback w)

/-- The method `GetBackBuffer`; `aType` is its argument `Type`.  `response` is
the outcome of the response wait that ends the call, `none` when no response
arrived in time. -/
def GetBackBuffer (iBackBuffer : Nat) (aType : Nat) (ppBackBuffer : Option (Option Nat))
    (response : Option HRESULT) (w : World) : HRESULT × Option (Option Nat) × World :=
  match ppBackBuffer with
  | none => (D3DERR_INVALIDCALL, none, w)
  | some _ =>
    match getChild iBackBuffer w.swapChain.m_children with
    | some surface =>
      let surface := surface.AddRef
      let w := { w with swapChain :=
        { w.swapChain with m_children := setChild iBackBuffer surface w.swapChain.m_children } }
      (D3D_OK, some (some surface.handle), w)
    | none =>
      let desc : D3DSURFACE_DESC :=
        { Width := w.swapChain.m_presParam.BackBufferWidth
          Height := w.swapChain.m_presParam.BackBufferHeight
          MultiSampleQuality := w.swapChain.m_presParam.MultiSampleQuality
          MultiSampleType := w.swapChain.m_presParam.MultiSampleType
          Format := w.swapChain.m_presParam.BackBufferFormat
          Usage := D3DUSAGE_RENDERTARGET
          Pool := D3DPOOL_DEFAULT
          Type_ := D3DRTYPE_SURFACE }
      let (obj, w) := Direct3DSurface9_LSS.ctor w.swapChain.handle desc w
      let pLssSurface := trackWrapper obj
      let w := { w with swapChain :=
        { w.swapChain with
          m_children := setChild iBackBuffer pLssSurface w.swapChain.m_children } }
      let cell : Option Nat := some pLssSurface.handle
      let (c, w) := ClientMessage.ctor Commands.IDirect3DSwapChain9_GetBackBuffer (getId w) w
      let c := c.send_data iBackBuffer
      let c := c.send_data aType
      let c := c.send_data pLssSurface.id
      let w := c.dtor w
      (WAIT_FOR_OPTIONAL_SERVER_RESPONSE response D3DERR_INVALIDCALL, some cell, w)

/-- The method `GetRasterStatus`, which ignores its argument. -/
def GetRasterStatus (pRasterStatus : Option D3DRASTER_STATUS) (w : World) :
    HRESULT × Option D3DRASTER_STATUS × World :=
  (D3D_OK, pRasterStatus, w)

/-- The method `GetDisplayMode`, forwarded to the owning device. -/
def GetDisplayMode (pMode : Option D3DDISPLAYMODE) (w : World) :
    HRESULT × Option D3DDISPLAYMODE × World :=
  match pMode with
  | none => (D3DERR_INVALIDCALL, none, w)
  | some _ => BaseDirect3DDevice9Ex_LSS.GetDisplayMode 0 pMode w

/-- The method `GetDevice`: one more reference on the owning device, whose
handle goes into the cell. -/
def GetDevice (ppDevice : Option (Option Nat)) (w : World) :
    HRESULT × Option (Option Nat) × World :=
  match ppDevice with
  | none => (D3DERR_INVALIDCALL, none, w)
  | some _ =>
    let w := BaseDirect3DDevice9Ex_LSS.AddRef w
    (D3D_OK, some (some w.m_pDevice.handle), w)

/-- The method `GetPresentParameters`: a copy of the cached parameters. -/
def GetPresentParameters (pPresentationParameters : Option D3DPRESENT_PARAMETERS)
    (w : World) : HRESULT × Option D3DPRESENT_PARAMETERS × World :=
  match pPresentationParameters with
  | none => (D3DERR_INVALIDCALL, none, w)
  | some _ => (D3D_OK, some w.swapChain.m_presParam, w)

end Direct3DSwapChain9_LSS

/-! ## A concrete world for evaluation -/

def presParam0 : D3DPRESENT_PARAMETERS :=
  { BackBufferWidth := 1920, BackBufferHeight := 1080, BackBufferFormat := 22,
    BackBufferCount := 2, MultiSampleType := 4, MultiSampleQuality := 1, SwapEffect := 1,
    hDeviceWindow := 4660, Windowed := true, EnableAutoDepthStencil := true,
    AutoDepthStencilFormat := 75, Flags := 0, FullScreen_RefreshRateInHz := 0,
    PresentationInterval := 1 }

def world0 : World :=
  { gbBridgeRunning := true, gSceneState := SceneState.SceneInProgress, counter := 7,
    events := [], ogWndProc := [4660], onceUnhookedWinproc := false, infoLog := [],
    nextHandle := 100, nextId := 40,
    m_pDevice := { handle := 1, refCount := 3, displayMode := ⟨1920, 1080, 60, 22⟩ },
    swapChain := { handle := 2, id := 9, refCount := 1, m_children := [],
                   m_presParam := presParam0 } }

/-- The world `world0` after the bridge was disabled. -/
def worldStopped : World := { world0 with gbBridgeRunning := false }

/-- Two consecutive `GetBackBuffer` calls for the same slot, both with a
non-null output pointer: the results of the first and of the second call. -/
def GetBackBufferTwice (iBackBuffer : Nat) (type1 type2 : Nat) (cell1 cell2 : Option Nat)
    (response1 response2 : Option HRESULT) (w : World) :
    (HRESULT × Option (Option Nat) × World) × (HRESULT × Option (Option Nat) × World) :=
  let first := Direct3DSwapChain9_LSS.GetBackBuffer iBackBuffer type1 (some cell1) response1 w
  (first, Direct3DSwapChain9_LSS.GetBackBuffer iBackBuffer type2 (some cell2) response2
            first.2.2)

/-- The number of `IDirect3DSwapChain9_GetBackBuffer` commands on the channel. -/
def getBackBufferCount (w : World) : Nat :=
  w.channel.countP fun c => c.opcode = Commands.IDirect3DSwapChain9_GetBackBuffer

/-! ## Theorems -/

theorem getChild_setChild (idx idx2 : Nat) (child : Direct3DSurface9_LSS)
    (l : List (Nat × Direct3DSurface9_LSS)) :
    getChild idx2 (setChild idx child l)
      = if idx2 = idx then some child else getChild idx2 l := by
  induction l with
  | nil =>
    by_cases h : idx2 = idx
    · simp [getChild, setChild, h]
    · simp [getChild, setChild, h, Ne.symm h]
  | cons hd tl ih =>
    obtain ⟨k, old⟩ := hd
    by_cases hk : k = idx
    · by_cases h : idx2 = idx
      · simp [getChild, setChild, hk, h]
      · simp [getChild, setChild, hk, h, Ne.symm h]
    · by_cases h : idx2 = idx
      · subst h
        simpa [getChild, setChild, hk] using ih
      · simp [getChild, setChild, hk, h, ih]

/-- The child `GetBackBuffer` creates in the world `w`. -/
theorem GetBackBuffer_empty_slot (iBackBuffer aType : Nat) (cell : Option Nat)
    (response : Option HRESULT) (w : World)
    (hempty : getChild iBackBuffer w.swapChain.m_children = none) :
    Direct3DSwapChain9_LSS.GetBackBuffer iBackBuffer aType (some cell) response w
      = (WAIT_FOR_OPTIONAL_SERVER_RESPONSE response D3DERR_INVALIDCALL,
         some (some w.nextHandle),
         { w with
           counter := w.counter + 1
           events := w.events
             ++ [Event.command
                  ⟨Commands.IDirect3DSwapChain9_GetBackBuffer, w.swapChain.id,
                   [PayloadItem.u32 iBackBuffer, PayloadItem.u32 aType,
                    PayloadItem.u32 w.nextId]⟩]
           nextHandle := w.nextHandle + 1
           nextId := w.nextId + 1
           swapChain :=
             { w.swapChain with
               m_children :=
                 setChild iBackBuffer
                   { handle := w.nextHandle, id := w.nextId, refCount := 1,
                     container := w.swapChain.handle,
                     desc :=
                       { Width := w.swapChain.m_presParam.BackBufferWidth
                         Height := w.swapChain.m_presParam.BackBufferHeight
                         Format := w.swapChain.m_presParam.BackBufferFormat
                         MultiSampleType := w.swapChain.m_presParam.MultiSampleType
                         MultiSampleQuality := w.swapChain.m_presParam.MultiSampleQuality
                         Usage := D3DUSAGE_RENDERTARGET
                         Pool := D3DPOOL_DEFAULT
                         Type_ := D3DRTYPE_SURFACE } }
                   w.swapChain.m_children } }) := by
  simp [Direct3DSwapChain9_LSS.GetBackBuffer, hempty, Direct3DSurface9_LSS.ctor, trackWrapper,
    ClientMessage.ctor, ClientMessage.send_data, ClientMessage.dtor,
    Direct3DSwapChain9_LSS.getId]

/-- The cached child `GetBackBuffer` returns. -/
theorem GetBackBuffer_cached (iBackBuffer aType : Nat) (cell : Option Nat)
    (response : Option HRESULT) (w : World) (surface : Direct3DSurface9_LSS)
    (hfull : getChild iBackBuffer w.swapChain.m_children = some surface) :
    Direct3DSwapChain9_LSS.GetBackBuffer iBackBuffer aType (some cell) response w
      = (D3D_OK, some (some surface.handle),
         { w with
           swapChain :=
             { w.swapChain with
               m_children :=
                 setChild iBackBuffer { surface with refCount := surface.refCount + 1 }
                   w.swapChain.m_children } }) := by
  simp [Direct3DSwapChain9_LSS.GetBackBuffer, hfull, Direct3DSurface9_LSS.AddRef]

namespace Direct3DSwapChain9_LSS

/-- C2, bridge-disabled short-circuit: when `gbBridgeRunning` is false at the
call, `Present` returns `D3D_OK` for all five arguments, and the world after
the call is the world before it with the `ClientMessage` counter reset and
`gSceneState` set to `WaitBeginScene`, nothing else; no command reaches the
channel and `syncOnPresent` is not called.  The reset and the scene state
are the same on the enabled path, where the counter then counts the one
`Present` message. -/
theorem Present_bridge_disabled (pSourceRect pDestRect : Option RECT)
    (hDestWindowOverride : Nat) (pDirtyRegion : Option RGNDATA) (dwFlags : Nat)
    (syncStatus : HRESULT) (w : World) (hoff : w.gbBridgeRunning = false) :
    Present pSourceRect pDestRect hDestWindowOverride pDirtyRegion dwFlags syncStatus w
        = (D3D_OK, { w with counter := 0, gSceneState := SceneState.WaitBeginScene })
      ∧ (Present pSourceRect pDestRect hDestWindowOverride pDirtyRegion dwFlags
          syncStatus w).2.events = w.events
      ∧ (Present pSourceRect pDestRect hDestWindowOverride pDirtyRegion dwFlags
          syncStatus w).2.channel = w.channel
      ∧ (Present pSourceRect pDestRect hDestWindowOverride pDirtyRegion dwFlags
          syncStatus w).2.syncCalls = w.syncCalls
      ∧ (∀ v : World,
          (Present pSourceRect pDestRect hDestWindowOverride pDirtyRegion dwFlags
              syncStatus v).2.gSceneState = SceneState.WaitBeginScene
            ∧ (Present pSourceRect pDestRect hDestWindowOverride pDirtyRegion dwFlags
                syncStatus v).2.counter = (if v.gbBridgeRunning = true then 1 else 0)) := by
  refine ⟨?_, ?_, ?_, ?_, ?_⟩
  · simp [Present, ClientMessage.reset_counter, hoff]
  · simp [Present, ClientMessage.reset_counter, hoff]
  · simp [Present, ClientMessage.reset_counter, hoff, World.channel]
  · simp [Present, ClientMessage.reset_counter, hoff, World.syncCalls]
  · intro v
    simp only [Present, ClientMessage.reset_counter, syncOnPresent, ClientMessage.ctor,
      ClientMessage.send_data, ClientMessage.send_data_sized, ClientMessage.dtor, getId,
      ONCE_Logger_info, FrameMark]
    by_cases hv : v.gbBridgeRunning = true <;>
      by_cases hs : syncStatus = ERROR_SEM_TIMEOUT <;>
      by_cases hh : hDestWindowOverride ≠ 0 ∧ v.ogWndProc.count hDestWindowOverride = 0 <;>
      by_cases ho : v.onceUnhookedWinproc = true <;>
      simp [hv, hs, hh, ho]

theorem Present_bridge_disabled_witness :
    worldStopped.gbBridgeRunning = false
      ∧ Present none (some ⟨0, 0, 640, 480⟩) 4660 none 1 ERROR_SEM_TIMEOUT worldStopped
          = (D3D_OK, { worldStopped with counter := 0,
                                         gSceneState := SceneState.WaitBeginScene })
      ∧ (Present none (some ⟨0, 0, 640, 480⟩) 4660 none 1 ERROR_SEM_TIMEOUT
          worldStopped).2.events = worldStopped.events
      ∧ (Present none (some ⟨0, 0, 640, 480⟩) 4660 none 1 ERROR_SEM_TIMEOUT
          worldStopped).2.channel = worldStopped.channel
      ∧ (Present none (some ⟨0, 0, 640, 480⟩) 4660 none 1 ERROR_SEM_TIMEOUT
          worldStopped).2.syncCalls = worldStopped.syncCalls
      ∧ (∀ v : World,
          (Present none (some ⟨0, 0, 640, 480⟩) 4660 none 1 ERROR_SEM_TIMEOUT
              v).2.gSceneState = SceneState.WaitBeginScene
            ∧ (Present none (some ⟨0, 0, 640, 480⟩) 4660 none 1 ERROR_SEM_TIMEOUT
                v).2.counter = (if v.gbBridgeRunning = true then 1 else 0)) :=
  ⟨rfl, Present_bridge_disabled none (some ⟨0, 0, 640, 480⟩) 4660 none 1
    ERROR_SEM_TIMEOUT worldStopped rfl⟩

/-- C3, timeout propagation: with `gbBridgeRunning` true, `Present` returns
`ERROR_SEM_TIMEOUT` exactly when `syncOnPresent` returned `ERROR_SEM_TIMEOUT`
and returns `D3D_OK` for every other status of `syncOnPresent`; the timeout
code differs from `D3D_OK` and from `D3DERR_INVALIDCALL`. -/
theorem Present_timeout_propagation (pSourceRect pDestRect : Option RECT)
    (hDestWindowOverride : Nat) (pDirtyRegion : Option RGNDATA) (dwFlags : Nat)
    (syncStatus : HRESULT) (w : World) (hon : w.gbBridgeRunning = true) :
    ((Present pSourceRect pDestRect hDestWindowOverride pDirtyRegion dwFlags
        syncStatus w).1 = ERROR_SEM_TIMEOUT ↔ syncStatus = ERROR_SEM_TIMEOUT)
      ∧ (Present pSourceRect pDestRect hDestWindowOverride pDirtyRegion dwFlags
          syncStatus w).1 = (if syncStatus = ERROR_SEM_TIMEOUT then ERROR_SEM_TIMEOUT
                             else D3D_OK)
      ∧ ERROR_SEM_TIMEOUT ≠ D3D_OK
      ∧ ERROR_SEM_TIMEOUT ≠ D3DERR_INVALIDCALL := by
  have h1 : ERROR_SEM_TIMEOUT ≠ D3D_OK := by decide
  have h2 : ERROR_SEM_TIMEOUT ≠ D3DERR_INVALIDCALL := by decide
  have h3 : (Present pSourceRect pDestRect hDestWindowOverride pDirtyRegion dwFlags
          syncStatus w).1 = (if syncStatus = ERROR_SEM_TIMEOUT then ERROR_SEM_TIMEOUT
                             else D3D_OK) := by
    simp only [Present, ClientMessage.reset_counter, hon, syncOnPresent, ClientMessage.ctor]
    by_cases hs : syncStatus = ERROR_SEM_TIMEOUT <;> simp [hs]
  refine ⟨?_, h3, h1, h2⟩
  rw [h3]
  by_cases hs : syncStatus = ERROR_SEM_TIMEOUT
  · simp [hs]
  · simp [hs, Ne.symm h1]

theorem Present_timeout_propagation_witness :
    world0.gbBridgeRunning = true
      ∧ ((Present none none 0 none 0 ERROR_SEM_TIMEOUT world0).1 = ERROR_SEM_TIMEOUT
          ↔ ERROR_SEM_TIMEOUT = ERROR_SEM_TIMEOUT)
      ∧ (Present none none 0 none 0 ERROR_SEM_TIMEOUT world0).1
          = (if ERROR_SEM_TIMEOUT = ERROR_SEM_TIMEOUT then ERROR_SEM_TIMEOUT else D3D_OK)
      ∧ ERROR_SEM_TIMEOUT ≠ D3D_OK
      ∧ ERROR_SEM_TIMEOUT ≠ D3DERR_INVALIDCALL :=
  ⟨rfl, Present_timeout_propagation none none 0 none 0 ERROR_SEM_TIMEOUT world0 rfl⟩

/-- C8, fixed framing of the Present command: with `gbBridgeRunning` true,
`Present` hands its collaborators exactly one `IDirect3DSwapChain9_Present`
command aimed at the id of the swap chain, then one call of `syncOnPresent`
(and the frame mark when that did not time out).  The command always has
the five payload items source rectangle (`sizeof(RECT)`), destination
rectangle (`sizeof(RECT)`), window override as a 32-bit integer, dirty region
(`sizeof(RGNDATA)`), flags, in this order, whether or not an argument is
null. -/
theorem Present_fixed_framing (pSourceRect pDestRect : Option RECT)
    (hDestWindowOverride : Nat) (pDirtyRegion : Option RGNDATA) (dwFlags : Nat)
    (syncStatus : HRESULT) (w : World) (hon : w.gbBridgeRunning = true) :
    (Present pSourceRect pDestRect hDestWindowOverride pDirtyRegion dwFlags
        syncStatus w).2.events
        = w.events
          ++ [Event.command
                ⟨Commands.IDirect3DSwapChain9_Present, w.swapChain.id,
                 [PayloadItem.data sizeof_RECT (pSourceRect.map Blob.rect),
                  PayloadItem.data sizeof_RECT (pDestRect.map Blob.rect),
                  PayloadItem.u32 (hDestWindowOverride % 0x100000000),
                  PayloadItem.data sizeof_RGNDATA (pDirtyRegion.map Blob.rgndata),
                  PayloadItem.u32 dwFlags]⟩,
              Event.syncOnPresent]
          ++ (if syncStatus = ERROR_SEM_TIMEOUT then [] else [Event.FrameMark])
      ∧ (Present pSourceRect pDestRect hDestWindowOverride pDirtyRegion dwFlags
          syncStatus w).2.channel
        = w.channel
          ++ [⟨Commands.IDirect3DSwapChain9_Present, w.swapChain.id,
               [PayloadItem.data sizeof_RECT (pSourceRect.map Blob.rect),
                PayloadItem.data sizeof_RECT (pDestRect.map Blob.rect),
                PayloadItem.u32 (hDestWindowOverride % 0x100000000),
                PayloadItem.data sizeof_RGNDATA (pDirtyRegion.map Blob.rgndata),
                PayloadItem.u32 dwFlags]⟩]
      ∧ (Present pSourceRect pDestRect hDestWindowOverride pDirtyRegion dwFlags
          syncStatus w).2.syncCalls = w.syncCalls + 1 := by
  have hev : (Present pSourceRect pDestRect hDestWindowOverride pDirtyRegion dwFlags
        syncStatus w).2.events
        = w.events
          ++ [Event.command
                ⟨Commands.IDirect3DSwapChain9_Present, w.swapChain.id,
                 [PayloadItem.data sizeof_RECT (pSourceRect.map Blob.rect),
                  PayloadItem.data sizeof_RECT (pDestRect.map Blob.rect),
                  PayloadItem.u32 (hDestWindowOverride % 0x100000000),
                  PayloadItem.data sizeof_RGNDATA (pDirtyRegion.map Blob.rgndata),
                  PayloadItem.u32 dwFlags]⟩,
              Event.syncOnPresent]
          ++ (if syncStatus = ERROR_SEM_TIMEOUT then [] else [Event.FrameMark]) := by
    simp only [Present, ClientMessage.reset_counter, hon, syncOnPresent, ClientMessage.ctor,
      ClientMessage.send_data, ClientMessage.send_data_sized, ClientMessage.dtor, getId,
      ONCE_Logger_info, FrameMark]
    by_cases hs : syncStatus = ERROR_SEM_TIMEOUT <;>
      by_cases hh : hDestWindowOverride ≠ 0 ∧ w.ogWndProc.count hDestWindowOverride = 0 <;>
      by_cases ho : w.onceUnhookedWinproc = true <;>
      simp [hs, hh, ho]
  refine ⟨hev, ?_, ?_⟩
  · unfold World.channel
    rw [hev]
    by_cases hs : syncStatus = ERROR_SEM_TIMEOUT <;> simp [hs, List.filterMap_append]
  · unfold World.syncCalls
    rw [hev]
    by_cases hs : syncStatus = ERROR_SEM_TIMEOUT <;> simp [hs, List.count_append]

theorem Present_fixed_framing_witness :
    world0.gbBridgeRunning = true
      ∧ (Present none none 0 none 8 D3D_OK world0).2.events
        = world0.events
          ++ [Event.command
                ⟨Commands.IDirect3DSwapChain9_Present, world0.swapChain.id,
                 [PayloadItem.data sizeof_RECT ((none : Option RECT).map Blob.rect),
                  PayloadItem.data sizeof_RECT ((none : Option RECT).map Blob.rect),
                  PayloadItem.u32 (0 % 0x100000000),
                  PayloadItem.data sizeof_RGNDATA ((none : Option RGNDATA).map Blob.rgndata),
                  PayloadItem.u32 8]⟩,
              Event.syncOnPresent]
          ++ (if D3D_OK = ERROR_SEM_TIMEOUT then [] else [Event.FrameMark])
      ∧ (Present none none 0 none 8 D3D_OK world0).2.channel
        = world0.channel
          ++ [⟨Commands.IDirect3DSwapChain9_Present, world0.swapChain.id,
               [PayloadItem.data sizeof_RECT ((none : Option RECT).map Blob.rect),
                PayloadItem.data sizeof_RECT ((none : Option RECT).map Blob.rect),
                PayloadItem.u32 (0 % 0x100000000),
                PayloadItem.data sizeof_RGNDATA ((none : Option RGNDATA).map Blob.rgndata),
                PayloadItem.u32 8]⟩]
      ∧ (Present none none 0 none 8 D3D_OK world0).2.syncCalls = world0.syncCalls + 1 :=
  ⟨rfl, Present_fixed_framing none none 0 none 8 D3D_OK world0 rfl⟩

/-- C4, capability closure: with a null `ppvObj`, `QueryInterface` returns
`E_POINTER` and changes nothing.  With a non-null `ppvObj` it returns `S_OK`,
stores the swap-chain proxy in the cell and adds exactly one reference when
`riid` is `IUnknown` or `IDirect3DSwapChain9`, and for every other `riid` it
returns `E_NOINTERFACE`, stores null in the cell and changes nothing.  It
returns `S_OK` only for those two identities. -/
theorem QueryInterface_capability_closure (riid : GUID) (ppvObj : Option (Option Nat))
    (old : Option Nat) (w : World) :
    QueryInterface riid none w = (E_POINTER, none, w)
      ∧ QueryInterface riid (some old) w
        = (if riid = uuidof_IUnknown ∨ riid = uuidof_IDirect3DSwapChain9 then
            (S_OK, some (some w.swapChain.handle),
              { w with swapChain :=
                  { w.swapChain with refCount := w.swapChain.refCount + 1 } })
           else (E_NOINTERFACE, some none, w))
      ∧ ((QueryInterface riid ppvObj w).1 = S_OK
          ↔ ppvObj ≠ none ∧ (riid = uuidof_IUnknown ∨ riid = uuidof_IDirect3DSwapChain9))
      ∧ E_POINTER ≠ S_OK ∧ E_NOINTERFACE ≠ S_OK ∧ E_POINTER ≠ E_NOINTERFACE := by
  have hp : E_POINTER ≠ S_OK := by decide
  have hn : E_NOINTERFACE ≠ S_OK := by decide
  refine ⟨rfl, ?_, ?_, hp, hn, by decide⟩
  · by_cases hr : riid = uuidof_IUnknown ∨ riid = uuidof_IDirect3DSwapChain9
    · simp [QueryInterface, hr, AddRef, Direct3DContainer9_LSS.AddRef, bridge_cast_this]
    · simp [QueryInterface, hr]
  · cases ppvObj with
    | none => simp [QueryInterface, hp]
    | some cell =>
      by_cases hr : riid = uuidof_IUnknown ∨ riid = uuidof_IDirect3DSwapChain9
      · simp [QueryInterface, hr, AddRef, Direct3DContainer9_LSS.AddRef]
      · simp [QueryInterface, hr, hn]

/-- C5, local rejection of a null output pointer: `GetBackBuffer` (any slot,
any type, any response), `GetDisplayMode`, `GetDevice` and
`GetPresentParameters` called with a null output pointer return
`D3DERR_INVALIDCALL` and leave the whole world as it was: nothing is sent,
the child cache and the device are untouched, the device is not called. -/
theorem null_output_pointer_rejected (iBackBuffer aType : Nat) (response : Option HRESULT)
    (w : World) :
    GetBackBuffer iBackBuffer aType none response w = (D3DERR_INVALIDCALL, none, w)
      ∧ GetDisplayMode none w = (D3DERR_INVALIDCALL, none, w)
      ∧ GetDevice none w = (D3DERR_INVALIDCALL, none, w)
      ∧ GetPresentParameters none w = (D3DERR_INVALIDCALL, none, w) :=
  ⟨rfl, rfl, rfl, rfl⟩

/-- C10, the stub `GetRasterStatus`: for every argument, a null pointer
included, it returns `D3D_OK`, leaves the pointee as the caller passed it and
leaves the world unchanged; its result is never `D3DERR_INVALIDCALL`. -/
theorem GetRasterStatus_stub (pRasterStatus : Option D3DRASTER_STATUS) (w : World) :
    GetRasterStatus pRasterStatus w = (D3D_OK, pRasterStatus, w)
      ∧ (GetRasterStatus none w).1 = D3D_OK
      ∧ (GetRasterStatus pRasterStatus w).1 ≠ D3DERR_INVALIDCALL := by
  refine ⟨rfl, rfl, ?_⟩
  show D3D_OK ≠ D3DERR_INVALIDCALL
  decide

/-- C7, child creation: when the cache has no child at slot `iBackBuffer` and
the output pointer is non-null, `GetBackBuffer` creates one surface proxy
whose descriptor copies width, height, format and multisample settings from
the cached presentation parameters and has usage `D3DUSAGE_RENDERTARGET`,
pool `D3DPOOL_DEFAULT` and type `D3DRTYPE_SURFACE`; it stores the proxy in the
cache at that slot (other slots keep their content) and in the output cell,
and sends exactly one `IDirect3DSwapChain9_GetBackBuffer` command aimed at the
id of the swap chain with the payload slot index, type argument, id of
the new child.  The presentation parameters stay as they were. -/
theorem GetBackBuffer_creates_child (iBackBuffer aType : Nat) (cell : Option Nat)
    (response : Option HRESULT) (w : World)
    (hempty : getChild iBackBuffer w.swapChain.m_children = none) :
    ∃ child : Direct3DSurface9_LSS,
      child.desc
          = { Width := w.swapChain.m_presParam.BackBufferWidth
              Height := w.swapChain.m_presParam.BackBufferHeight
              Format := w.swapChain.m_presParam.BackBufferFormat
              MultiSampleType := w.swapChain.m_presParam.MultiSampleType
              MultiSampleQuality := w.swapChain.m_presParam.MultiSampleQuality
              Usage := D3DUSAGE_RENDERTARGET
              Pool := D3DPOOL_DEFAULT
              Type_ := D3DRTYPE_SURFACE }
        ∧ child.handle = w.nextHandle
        ∧ child.id = w.nextId
        ∧ GetBackBuffer iBackBuffer aType (some cell) response w
            = (WAIT_FOR_OPTIONAL_SERVER_RESPONSE response D3DERR_INVALIDCALL,
               some (some child.handle),
               { w with
                 counter := w.counter + 1
                 events := w.events
                   ++ [Event.command
                        ⟨Commands.IDirect3DSwapChain9_GetBackBuffer, w.swapChain.id,
                         [PayloadItem.u32 iBackBuffer, PayloadItem.u32 aType,
                          PayloadItem.u32 child.id]⟩]
                 nextHandle := w.nextHandle + 1
                 nextId := w.nextId + 1
                 swapChain :=
                   { w.swapChain with
                     m_children := setChild iBackBuffer child w.swapChain.m_children } })
        ∧ (∀ slot : Nat,
            getChild slot
                (GetBackBuffer iBackBuffer aType (some cell) response w).2.2.swapChain.m_children
              = if slot = iBackBuffer then some child
                else getChild slot w.swapChain.m_children)
        ∧ (GetBackBuffer iBackBuffer aType (some cell) response w).2.2.channel
            = w.channel
              ++ [⟨Commands.IDirect3DSwapChain9_GetBackBuffer, w.swapChain.id,
                   [PayloadItem.u32 iBackBuffer, PayloadItem.u32 aType,
                    PayloadItem.u32 child.id]⟩]
        ∧ (GetBackBuffer iBackBuffer aType (some cell) response w).2.2.swapChain.m_presParam
            = w.swapChain.m_presParam := by
  refine ⟨⟨w.nextHandle, w.nextId, 1, w.swapChain.handle,
      ⟨w.swapChain.m_presParam.BackBufferFormat, D3DRTYPE_SURFACE, D3DUSAGE_RENDERTARGET,
       D3DPOOL_DEFAULT, w.swapChain.m_presParam.MultiSampleType,
       w.swapChain.m_presParam.MultiSampleQuality, w.swapChain.m_presParam.BackBufferWidth,
       w.swapChain.m_presParam.BackBufferHeight⟩⟩,
    rfl, rfl, rfl, GetBackBuffer_empty_slot iBackBuffer aType cell response w hempty,
    ?_, ?_, ?_⟩
  · intro slot
    rw [GetBackBuffer_empty_slot iBackBuffer aType cell response w hempty]
    exact getChild_setChild _ _ _ _
  · rw [GetBackBuffer_empty_slot iBackBuffer aType cell response w hempty]
    simp [World.channel, List.filterMap_append]
  · rw [GetBackBuffer_empty_slot iBackBuffer aType cell response w hempty]

theorem GetBackBuffer_creates_child_witness :
    getChild 0 world0.swapChain.m_children = none
      ∧ ∃ child : Direct3DSurface9_LSS,
          child.desc
              = { Width := world0.swapChain.m_presParam.BackBufferWidth
                  Height := world0.swapChain.m_presParam.BackBufferHeight
                  Format := world0.swapChain.m_presParam.BackBufferFormat
                  MultiSampleType := world0.swapChain.m_presParam.MultiSampleType
                  MultiSampleQuality := world0.swapChain.m_presParam.MultiSampleQuality
                  Usage := D3DUSAGE_RENDERTARGET
                  Pool := D3DPOOL_DEFAULT
                  Type_ := D3DRTYPE_SURFACE }
            ∧ child.handle = world0.nextHandle
            ∧ child.id = world0.nextId
            ∧ GetBackBuffer 0 0 (some none) none world0
                = (WAIT_FOR_OPTIONAL_SERVER_RESPONSE none D3DERR_INVALIDCALL,
                   some (some child.handle),
                   { world0 with
                     counter := world0.counter + 1
                     events := world0.events
                       ++ [Event.command
                            ⟨Commands.IDirect3DSwapChain9_GetBackBuffer, world0.swapChain.id,
                             [PayloadItem.u32 0, PayloadItem.u32 0,
                              PayloadItem.u32 child.id]⟩]
                     nextHandle := world0.nextHandle + 1
                     nextId := world0.nextId + 1
                     swapChain :=
                       { world0.swapChain with
                         m_children := setChild 0 child world0.swapChain.m_children } })
            ∧ (∀ slot : Nat,
                getChild slot
                    (GetBackBuffer 0 0 (some none) none world0).2.2.swapChain.m_children
                  = if slot = 0 then some child
                    else getChild slot world0.swapChain.m_children)
            ∧ (GetBackBuffer 0 0 (some none) none world0).2.2.channel
                = world0.channel
                  ++ [⟨Commands.IDirect3DSwapChain9_GetBackBuffer, world0.swapChain.id,
                       [PayloadItem.u32 0, PayloadItem.u32 0, PayloadItem.u32 child.id]⟩]
            ∧ (GetBackBuffer 0 0 (some none) none world0).2.2.swapChain.m_presParam
                = world0.swapChain.m_presParam :=
  ⟨rfl, GetBackBuffer_creates_child 0 0 none none world0 rfl⟩

/-- C1, idempotent child lookup: starting with no child at slot
`iBackBuffer`, two consecutive `GetBackBuffer` calls for that slot, with any
type arguments, any non-null output pointers and any outcome of either
response wait, put the same child (same handle, same id) into the output
cell.  The second call returns `D3D_OK`, adds exactly one reference to the
cached child, changes nothing else and sends nothing: the two calls together
append one command, the `IDirect3DSwapChain9_GetBackBuffer` registration of
the first call. -/
theorem GetBackBuffer_idempotent (iBackBuffer type1 type2 : Nat) (cell1 cell2 : Option Nat)
    (response1 response2 : Option HRESULT) (w : World)
    (hempty : getChild iBackBuffer w.swapChain.m_children = none) :
    ∃ child : Direct3DSurface9_LSS,
      getChild iBackBuffer
          (GetBackBufferTwice iBackBuffer type1 type2 cell1 cell2 response1 response2
            w).1.2.2.swapChain.m_children = some child
        ∧ (GetBackBufferTwice iBackBuffer type1 type2 cell1 cell2 response1 response2
            w).1.2.1 = some (some child.handle)
        ∧ (GetBackBufferTwice iBackBuffer type1 type2 cell1 cell2 response1 response2
            w).2.1 = D3D_OK
        ∧ (GetBackBufferTwice iBackBuffer type1 type2 cell1 cell2 response1 response2
            w).2.2.1 = some (some child.handle)
        ∧ getChild iBackBuffer
            (GetBackBufferTwice iBackBuffer type1 type2 cell1 cell2 response1 response2
              w).2.2.2.swapChain.m_children
            = some { child with refCount := child.refCount + 1 }
        ∧ (GetBackBufferTwice iBackBuffer type1 type2 cell1 cell2 response1 response2
            w).2.2.2
            = { (GetBackBufferTwice iBackBuffer type1 type2 cell1 cell2 response1 response2
                  w).1.2.2 with
                swapChain :=
                  { (GetBackBufferTwice iBackBuffer type1 type2 cell1 cell2 response1
                      response2 w).1.2.2.swapChain with
                    m_children :=
                      setChild iBackBuffer { child with refCount := child.refCount + 1 }
                        (GetBackBufferTwice iBackBuffer type1 type2 cell1 cell2 response1
                          response2 w).1.2.2.swapChain.m_children } }
        ∧ (GetBackBufferTwice iBackBuffer type1 type2 cell1 cell2 response1 response2
            w).2.2.2.events
            = (GetBackBufferTwice iBackBuffer type1 type2 cell1 cell2 response1 response2
                w).1.2.2.events
        ∧ (GetBackBufferTwice iBackBuffer type1 type2 cell1 cell2 response1 response2
            w).2.2.2.channel
            = w.channel
              ++ [⟨Commands.IDirect3DSwapChain9_GetBackBuffer, w.swapChain.id,
                   [PayloadItem.u32 iBackBuffer, PayloadItem.u32 type1,
                    PayloadItem.u32 child.id]⟩]
        ∧ getBackBufferCount
            (GetBackBufferTwice iBackBuffer type1 type2 cell1 cell2 response1 response2
              w).2.2.2 = getBackBufferCount w + 1 := by
  have h1 := GetBackBuffer_empty_slot iBackBuffer type1 cell1 response1 w hempty
  have hfull : getChild iBackBuffer
      (GetBackBuffer iBackBuffer type1 (some cell1) response1 w).2.2.swapChain.m_children
        = some ⟨w.nextHandle, w.nextId, 1, w.swapChain.handle,
            ⟨w.swapChain.m_presParam.BackBufferFormat, D3DRTYPE_SURFACE,
             D3DUSAGE_RENDERTARGET, D3DPOOL_DEFAULT, w.swapChain.m_presParam.MultiSampleType,
             w.swapChain.m_presParam.MultiSampleQuality,
             w.swapChain.m_presParam.BackBufferWidth,
             w.swapChain.m_presParam.BackBufferHeight⟩⟩ := by
    rw [h1]
    simp [getChild_setChild]
  have h2 := GetBackBuffer_cached iBackBuffer type2 cell2 response2
    (GetBackBuffer iBackBuffer type1 (some cell1) response1 w).2.2 _ hfull
  refine ⟨⟨w.nextHandle, w.nextId, 1, w.swapChain.handle,
      ⟨w.swapChain.m_presParam.BackBufferFormat, D3DRTYPE_SURFACE, D3DUSAGE_RENDERTARGET,
       D3DPOOL_DEFAULT, w.swapChain.m_presParam.MultiSampleType,
       w.swapChain.m_presParam.MultiSampleQuality, w.swapChain.m_presParam.BackBufferWidth,
       w.swapChain.m_presParam.BackBufferHeight⟩⟩, ?_⟩
  unfold GetBackBufferTwice
  dsimp only
  rw [h2, h1]
  refine ⟨?_, rfl, rfl, rfl, ?_, rfl, rfl, ?_, ?_⟩
  · simp [getChild_setChild]
  · simp [getChild_setChild]
  · simp [World.channel, List.filterMap_append]
  · simp [getBackBufferCount, World.channel, List.filterMap_append, List.countP_append]

theorem GetBackBuffer_idempotent_witness :
    getChild 0 world0.swapChain.m_children = none
      ∧ ∃ child : Direct3DSurface9_LSS,
          getChild 0 (GetBackBufferTwice 0 0 1 none none none (some D3D_OK) world0).1.2.2.swapChain.m_children = some child
            ∧ (GetBackBufferTwice 0 0 1 none none none (some D3D_OK) world0).1.2.1 = some (some child.handle)
            ∧ (GetBackBufferTwice 0 0 1 none none none (some D3D_OK) world0).2.1 = D3D_OK
            ∧ (GetBackBufferTwice 0 0 1 none none none (some D3D_OK) world0).2.2.1 = some (some child.handle)
            ∧ getChild 0 (GetBackBufferTwice 0 0 1 none none none (some D3D_OK) world0).2.2.2.swapChain.m_children
                = some { child with refCount := child.refCount + 1 }
            ∧ (GetBackBufferTwice 0 0 1 none none none (some D3D_OK) world0).2.2.2
                = { (GetBackBufferTwice 0 0 1 none none none (some D3D_OK) world0).1.2.2 with
                    swapChain :=
                      { (GetBackBufferTwice 0 0 1 none none none (some D3D_OK) world0).1.2.2.swapChain with
                        m_children :=
                          setChild 0 { child with refCount := child.refCount + 1 }
                            (GetBackBufferTwice 0 0 1 none none none (some D3D_OK) world0).1.2.2.swapChain.m_children } }
            ∧ (GetBackBufferTwice 0 0 1 none none none (some D3D_OK) world0).2.2.2.events = (GetBackBufferTwice 0 0 1 none none none (some D3D_OK) world0).1.2.2.events
            ∧ (GetBackBufferTwice 0 0 1 none none none (some D3D_OK) world0).2.2.2.channel
                = world0.channel
                  ++ [⟨Commands.IDirect3DSwapChain9_GetBackBuffer, world0.swapChain.id,
                       [PayloadItem.u32 0, PayloadItem.u32 0, PayloadItem.u32 child.id]⟩]
            ∧ getBackBufferCount (GetBackBufferTwice 0 0 1 none none none (some D3D_OK) world0).2.2.2 = getBackBufferCount world0 + 1 :=
  ⟨rfl, GetBackBuffer_idempotent 0 0 1 none none none (some D3D_OK) world0 rfl⟩

/-- C6, the destination of `GetFrontBufferData`: a null `pDestSurface` is not
rejected with `D3DERR_INVALIDCALL`.  The method calls a member of the null
surface pointer, which is a fault of the process and no return value; and
for every non-null destination it sends the
`IDirect3DSwapChain9_GetFrontBufferData` command and starts the readback
without any validation, returning whatever the readback returns. -/
theorem GetFrontBufferData_no_validation (pLssDestinationSurface : Direct3DSurface9_LSS)
    (readback : HRESULT) (w : World) :
    GetFrontBufferData none readback w = Except.error Fault.nullPointerDereference
      ∧ GetFrontBufferData (some pLssDestinationSurface) readback w
        = Except.ok
            (readback,
              { w with
                counter := w.counter + 1
                events := w.events
                  ++ [Event.command
                        ⟨Commands.IDirect3DSwapChain9_GetFrontBufferData, w.swapChain.id,
                         [PayloadItem.u32 (pLssDestinationSurface.id % 0x100000000)]⟩,
                      Event.copyServerSurfaceRawData pLssDestinationSurface.handle] }) := by
  refine ⟨rfl, ?_⟩
  simp [GetFrontBufferData, ClientMessage.ctor, ClientMessage.send_data, ClientMessage.dtor,
    copyServerSurfaceRawData, getId, Direct3DSurface9_LSS.D3D]

end Direct3DSwapChain9_LSS

end BridgeRemix
